import Mathlib

/-!
Verification of the fuzzy LRU response cache, context selector and pipeline
orchestrator of `src/rag/pipeline.py` (class `MinecraftRAGPipeline`).

The Python code is shallowly embedded: strings are Lean `String`s
(sequences of unicode scalar values, matching Python's `str`),
`hashlib.md5` is embedded as an executable MD5 over `Nat` arithmetic
modulo 2^32, `difflib.SequenceMatcher(None, a, b).ratio()` is embedded
following CPython's `difflib` (DP longest-match search, recursive block
decomposition, autojunk), floats carrying exact decimal constants and
similarity ratios are embedded as `ℚ`, and the `OrderedDict` response
cache is a key-ordered association list (front = least recently inserted).
External I/O (the vector DB search and the Ollama HTTP call) is supplied
by an environment record describing the single observable outcome of each
call; Python exceptions are `Except` errors.
-/

set_option maxRecDepth 100000

/- Batteries marks the `Rat` arithmetic operations `@[irreducible]`,
which blocks `decide` on concrete similarity ratios and scores; restore
the default reducibility for this file. -/
attribute [local semireducible] Rat.mul Rat.add Rat.sub Rat.inv
  Rat.ofScientific

namespace NextCraftTalk

/-! ### Python string primitives

`str.lower()` and `str.strip()` are embedded over the character list of
the string (ASCII case mapping and ASCII whitespace, which cover every
string these claims touch). -/

/-- Python `str.lower()` (ASCII range). -/
def pyLower (s : String) : String :=
  String.mk (s.data.map Char.toLower)

/-- Python `str.strip()`: remove leading and trailing whitespace. -/
def pyStrip (s : String) : String :=
  String.mk
    (((s.data.dropWhile Char.isWhitespace).reverse.dropWhile
      Char.isWhitespace).reverse)

/-! ### UTF-8 encoding (Python `str.encode()`) -/

/-- UTF-8 encoding of a single unicode scalar value, as byte values. -/
def encodeChar (c : Char) : List Nat :=
  let n := c.toNat
  if n < 128 then [n]
  else if n < 2048 then [192 + n / 64, 128 + n % 64]
  else if n < 65536 then
    [224 + n / 4096, 128 + (n / 64) % 64, 128 + n % 64]
  else
    [240 + n / 262144, 128 + (n / 4096) % 64, 128 + (n / 64) % 64, 128 + n % 64]

/-- UTF-8 encoding of a string, as byte values (Python `s.encode()`). -/
def utf8Bytes (s : String) : List Nat :=
  (s.data.map encodeChar).flatten

/-! ### MD5 (Python `hashlib.md5(...).hexdigest()`)

Implemented over `Nat` with explicit reduction modulo `2^32`,
following RFC 1321. -/

/-- Reduce to a 32-bit word. -/
def w32 (n : Nat) : Nat := n % 4294967296

/-- Left-rotate a 32-bit word by `s` bits (`0 < s < 32`). -/
def rotl32 (x s : Nat) : Nat := (x % 2 ^ (32 - s)) * 2 ^ s + x / 2 ^ (32 - s)

/-- Bitwise complement of a 32-bit word. -/
def not32 (x : Nat) : Nat := 4294967295 - x

/-- The 64 MD5 sine-derived constants `K[i]` (RFC 1321). -/
def md5K : List Nat :=
  [0xd76aa478, 0xe8c7b756, 0x242070db, 0xc1bdceee,
   0xf57c0faf, 0x4787c62a, 0xa8304613, 0xfd469501,
   0x698098d8, 0x8b44f7af, 0xffff5bb1, 0x895cd7be,
   0x6b901122, 0xfd987193, 0xa679438e, 0x49b40821,
   0xf61e2562, 0xc040b340, 0x265e5a51, 0xe9b6c7aa,
   0xd62f105d, 0x02441453, 0xd8a1e681, 0xe7d3fbc8,
   0x21e1cde6, 0xc33707d6, 0xf4d50d87, 0x455a14ed,
   0xa9e3e905, 0xfcefa3f8, 0x676f02d9, 0x8d2a4c8a,
   0xfffa3942, 0x8771f681, 0x6d9d6122, 0xfde5380c,
   0xa4beea44, 0x4bdecfa9, 0xf6bb4b60, 0xbebfbc70,
   0x289b7ec6, 0xeaa127fa, 0xd4ef3085, 0x04881d05,
   0xd9d4d039, 0xe6db99e5, 0x1fa27cf8, 0xc4ac5665,
   0xf4292244, 0x432aff97, 0xab9423a7, 0xfc93a039,
   0x655b59c3, 0x8f0ccc92, 0xffeff47d, 0x85845dd1,
   0x6fa87e4f, 0xfe2ce6e0, 0xa3014314, 0x4e0811a1,
   0xf7537e82, 0xbd3af235, 0x2ad7d2bb, 0xeb86d391]

/-- The 64 per-round left-rotation amounts `s[i]` (RFC 1321). -/
def md5S : List Nat :=
  [7, 12, 17, 22, 7, 12, 17, 22, 7, 12, 17, 22, 7, 12, 17, 22,
   5, 9, 14, 20, 5, 9, 14, 20, 5, 9, 14, 20, 5, 9, 14, 20,
   4, 11, 16, 23, 4, 11, 16, 23, 4, 11, 16, 23, 4, 11, 16, 23,
   6, 10, 15, 21, 6, 10, 15, 21, 6, 10, 15, 21, 6, 10, 15, 21]

/-- MD5 padding: append `0x80`, zero bytes to 56 mod 64, then the 64-bit
little-endian bit length of the original message. -/
def md5pad (msg : List Nat) : List Nat :=
  let len := msg.length
  let zeros := (120 - (len + 1) % 64) % 64
  let bitLen := (len * 8) % 2 ^ 64
  msg ++ [128] ++ List.replicate zeros 0 ++
    ((List.range 8).map fun i => bitLen / 2 ^ (8 * i) % 256)

/-- The 16 little-endian 32-bit words of one 64-byte block. -/
def md5Words (block : List Nat) : List Nat :=
  (List.range 16).map fun g =>
    block.getD (4 * g) 0 + 256 * block.getD (4 * g + 1) 0 +
      65536 * block.getD (4 * g + 2) 0 + 16777216 * block.getD (4 * g + 3) 0

/-- One MD5 round: state `(A, B, C, D)`, round index `i`, message words `m`. -/
def md5Round (m : List Nat) (st : Nat × Nat × Nat × Nat) (i : Nat) :
    Nat × Nat × Nat × Nat :=
  let (a, b, c, d) := st
  let f :=
    if i < 16 then (b &&& c) ||| (not32 b &&& d)
    else if i < 32 then (d &&& b) ||| (not32 d &&& c)
    else if i < 48 then b ^^^ c ^^^ d
    else c ^^^ (b ||| not32 d)
  let g :=
    if i < 16 then i
    else if i < 32 then (5 * i + 1) % 16
    else if i < 48 then (3 * i + 5) % 16
    else (7 * i) % 16
  let tmp := w32 (f + a + md5K.getD i 0 + m.getD g 0)
  (d, w32 (b + rotl32 tmp (md5S.getD i 0)), b, c)

/-- Process one 64-byte block, updating the running digest state. -/
def md5Block (h : Nat × Nat × Nat × Nat) (block : List Nat) :
    Nat × Nat × Nat × Nat :=
  let (a0, b0, c0, d0) := h
  let (a, b, c, d) := (List.range 64).foldl (md5Round (md5Words block)) h
  (w32 (a0 + a), w32 (b0 + b), w32 (c0 + c), w32 (d0 + d))

/-- Process `n` consecutive 64-byte blocks of `l`. -/
def md5Blocks (h : Nat × Nat × Nat × Nat) (l : List Nat) :
    Nat → Nat × Nat × Nat × Nat
  | 0 => h
  | n + 1 => md5Blocks (md5Block h (l.take 64)) (l.drop 64) n

/-- Little-endian byte decomposition of a 32-bit word. -/
def le4 (n : Nat) : List Nat :=
  [n % 256, n / 256 % 256, n / 65536 % 256, n / 16777216 % 256]

/-- Lowercase hex digit. -/
def hexDigit (n : Nat) : Char :=
  "0123456789abcdef".data.getD n 'x'

/-- Lowercase hex rendering of a byte list. -/
def bytesToHex (bytes : List Nat) : String :=
  String.mk ((bytes.map fun b => [hexDigit (b / 16), hexDigit (b % 16)]).flatten)

/-- `hashlib.md5(bytes).hexdigest()`: MD5 digest of a byte list,
as a lowercase hex string. -/
def md5hex (msg : List Nat) : String :=
  let padded := md5pad msg
  let (a, b, c, d) :=
    md5Blocks (0x67452301, 0xefcdab89, 0x98badcfe, 0x10325476)
      padded (padded.length / 64)
  bytesToHex (le4 a ++ le4 b ++ le4 c ++ le4 d)

/-! ### `difflib.SequenceMatcher(None, a, b).ratio()`

Embedded following CPython's `difflib`: `b2j` index map with autojunk
pruning, the dynamic-programming longest-match scan of
`find_longest_match` (with its non-junk extension passes; `isjunk` is
`None`, so the junk set is empty and the junk extension passes never
fire), the recursive block decomposition of `get_matching_blocks`, and
`ratio = 2 * matches / (len a + len b)` as an exact rational. -/

/-- Character of `l` at index `i` (all uses are in range). -/
def chAt (l : List Char) (i : Nat) : Char := l.getD i ' '

/-- Indices at which `c` occurs in `b`, in increasing order
(`b2j` before autojunk pruning). -/
def b2jAll (b : List Char) (c : Char) : List Nat :=
  (b.enum.filter fun p => p.snd == c).map Prod.fst

/-- CPython autojunk: with `len b ≥ 200`, elements occurring more than
`len b / 100 + 1` times are "popular" and pruned from `b2j`. -/
def isPopular (b : List Char) (c : Char) : Bool :=
  decide (200 ≤ b.length) && decide (b.length / 100 + 1 < b.count c)

/-- `b2j` with autojunk pruning applied. -/
def b2j (b : List Char) (c : Char) : List Nat :=
  if isPopular b c then [] else b2jAll b c

/-- `j2len.get(j, 0)` on the association-list representation of the
`j2len` dict. -/
def j2get (j2len : List (Nat × Nat)) (j : Nat) : Nat :=
  (j2len.lookup j).getD 0

/-- Inner loop of `find_longest_match` for one row `i`: walk the
increasing occurrence indices `js` of `a[i]` in `b`, building the new
`j2len` dict and updating the strictly-best match. `j < blo` is skipped
(`continue`), `j ≥ bhi` stops the row (`break`; `js` is increasing). -/
def flmInner (j2len : List (Nat × Nat)) (i blo bhi : Nat) :
    List Nat → List (Nat × Nat) × Nat × Nat × Nat →
      List (Nat × Nat) × Nat × Nat × Nat
  | [], st => st
  | j :: js, (newj2len, besti, bestj, bestsize) =>
    if j < blo then
      flmInner j2len i blo bhi js (newj2len, besti, bestj, bestsize)
    else if bhi ≤ j then (newj2len, besti, bestj, bestsize)
    else
      let k := (if j = 0 then 0 else j2get j2len (j - 1)) + 1
      let newj2len := (j, k) :: newj2len
      if bestsize < k then
        flmInner j2len i blo bhi js (newj2len, i + 1 - k, j + 1 - k, k)
      else
        flmInner j2len i blo bhi js (newj2len, besti, bestj, bestsize)

/-- Outer loop of `find_longest_match`: rows `i ∈ [alo, ahi)`. -/
def flmOuter (a b : List Char) (blo bhi : Nat) :
    List Nat → List (Nat × Nat) → Nat × Nat × Nat → Nat × Nat × Nat
  | [], _, best => best
  | i :: rest, j2len, best =>
    let (newj2len, best') :=
      flmInner j2len i blo bhi (b2j b (chAt a i)) ([], best)
    flmOuter a b blo bhi rest newj2len best'

/-- Left extension pass of `find_longest_match` (non-junk; the junk set
is empty here). Fuel bounds the loop; `besti` decreases each step. -/
def extendLeft (a b : List Char) (alo blo : Nat) :
    Nat → Nat × Nat × Nat → Nat × Nat × Nat
  | 0, best => best
  | fuel + 1, (besti, bestj, bestsize) =>
    if decide (alo < besti) && decide (blo < bestj) &&
        (chAt a (besti - 1) == chAt b (bestj - 1)) then
      extendLeft a b alo blo fuel (besti - 1, bestj - 1, bestsize + 1)
    else (besti, bestj, bestsize)

/-- Right extension pass of `find_longest_match`. -/
def extendRight (a b : List Char) (ahi bhi : Nat) :
    Nat → Nat × Nat × Nat → Nat × Nat × Nat
  | 0, best => best
  | fuel + 1, (besti, bestj, bestsize) =>
    if decide (besti + bestsize < ahi) && decide (bestj + bestsize < bhi) &&
        (chAt a (besti + bestsize) == chAt b (bestj + bestsize)) then
      extendRight a b ahi bhi fuel (besti, bestj, bestsize + 1)
    else (besti, bestj, bestsize)

/-- `find_longest_match(alo, ahi, blo, bhi)`: returns
`(besti, bestj, bestsize)`. -/
def findLongestMatch (a b : List Char) (alo ahi blo bhi : Nat) :
    Nat × Nat × Nat :=
  let best := flmOuter a b blo bhi (List.range' alo (ahi - alo)) []
    (alo, blo, 0)
  let best := extendLeft a b alo blo best.1 best
  extendRight a b ahi bhi ahi best

/-- Total size of the matching blocks of `get_matching_blocks`,
by the recursive decomposition around each longest match. The fuel
dominates the recursion depth (each sub-interval is strictly smaller). -/
def matchesSum (a b : List Char) : Nat → Nat × Nat × Nat × Nat → Nat
  | 0, _ => 0
  | fuel + 1, (alo, ahi, blo, bhi) =>
    let (i, j, k) := findLongestMatch a b alo ahi blo bhi
    if k = 0 then 0
    else
      k + (if decide (alo < i) && decide (blo < j) then
             matchesSum a b fuel (alo, i, blo, j) else 0)
        + (if decide (i + k < ahi) && decide (j + k < bhi) then
             matchesSum a b fuel (i + k, ahi, j + k, bhi) else 0)

/-- `SequenceMatcher(None, a, b).ratio()` as an exact rational:
`2 * matches / (len a + len b)`, and `1` when both are empty. -/
def similarity (a b : List Char) : ℚ :=
  let numMatches := matchesSum a b (a.length + b.length + 1)
    (0, a.length, 0, b.length)
  if a.length + b.length = 0 then 1
  else (2 * numMatches : ℚ) / ((a.length : ℚ) + (b.length : ℚ))

/-! ### Data model -/

/-- A passage as returned by `vector_db.search`: a dict with `title`,
`content`, `url` and (optionally) a `score` (distance) key, read by the
pipeline via `result.get("score", 1.0)` and `doc["score"]`. -/
structure Doc where
  title : String
  content : String
  url : String
  score : Option ℚ
deriving DecidableEq, Repr

/-- One element of the payload's `sources` list:
`{"title": ..., "url": ..., "relevance": doc["score"]}`. -/
structure SourceRef where
  title : String
  url : String
  relevance : Option ℚ
deriving DecidableEq, Repr

/-- The dict returned by `answer_question`:
`{"answer", "sources", "context_used"}`. -/
structure AnswerPayload where
  answer : String
  sources : List SourceRef
  contextUsed : Nat
deriving DecidableEq, Repr

/-- A value of the `response_cache` `OrderedDict`:
`{"query": query, "response": response, "timestamp": time.time()}`
(the timestamp is an opaque tick supplied by the caller). -/
structure CacheEntry where
  query : String
  response : AnswerPayload
  timestamp : Nat
deriving DecidableEq, Repr

/-- The mutable state of `MinecraftRAGPipeline` relevant to the core:
`response_cache` is the `OrderedDict` as an association list in insertion
order (front = least recently inserted), plus the configuration constants
set in `__init__`. The prompt template is the currently loaded string
(hot reload replaces it; its content is irrelevant to the claims). -/
structure PipelineState where
  responseCache : List (String × CacheEntry)
  cacheMaxSize : Nat
  cacheSimilarityThreshold : ℚ
  promptTemplate : String
deriving DecidableEq, Repr

/-- The pipeline as constructed by `__init__`: empty cache, max size 50,
similarity threshold 0.85. -/
def initState : PipelineState :=
  { responseCache := []
    cacheMaxSize := 50
    cacheSimilarityThreshold := 0.85
    promptTemplate := "" }

/-- A Python exception escaping the embedded code: a `KeyError` from the
`self.response_cache[cache_key]` dict access, or whatever
`self.vector_db.search` raised. -/
inductive PyError where
  | keyError (key : String)
  | searchError (msg : String)
deriving DecidableEq, Repr

/-- Observable outcome of the single `requests.post` call made by
`generate_response`: HTTP 200 with a response body, a non-200 status,
`requests.exceptions.Timeout`, or any other transport exception. -/
inductive GenOutcome where
  | success (body : String)
  | badStatus (code : Nat)
  | timeout
  | connError (msg : String)
deriving DecidableEq, Repr

/-- Outcomes of the external calls made during one `answer_question`
invocation: the result (or exception) of `vector_db.search`, the outcome
of the Ollama generation call, and the current `time.time()` tick. -/
structure Env where
  searchResult : Except PyError (List Doc)
  genOutcome : GenOutcome
  now : Nat

/-- Decidable equality for `Except` (not provided by core). -/
instance exceptDecEq {ε α : Type} [DecidableEq ε] [DecidableEq α] :
    DecidableEq (Except ε α) := fun x y =>
  match x, y with
  | .ok a, .ok b =>
    if h : a = b then isTrue (by rw [h])
    else isFalse (by intro hc; exact h (Except.ok.inj hc))
  | .error a, .error b =>
    if h : a = b then isTrue (by rw [h])
    else isFalse (by intro hc; exact h (Except.error.inj hc))
  | .ok _, .error _ => isFalse (by intro hc; exact Except.noConfusion hc)
  | .error _, .ok _ => isFalse (by intro hc; exact Except.noConfusion hc)

/-! ### Response cache (`_get_cache_key`, `_find_similar_cached_query`,
`_cache_response`, `_get_cached_response`, `clear_cache`) -/

/-- `_get_cache_key`: MD5 hex digest of the lower-cased, stripped query
(`hashlib.md5(query.lower().strip().encode()).hexdigest()`). -/
def getCacheKey (query : String) : String :=
  md5hex (utf8Bytes (pyStrip (pyLower query)))

/-- The keys of the cache in order (`self.response_cache.keys()`). -/
def cacheKeys (st : PipelineState) : List String :=
  st.responseCache.map Prod.fst

/-- `_find_similar_cached_query`: scan the keys of `response_cache` in
order and return the first whose similarity ratio with the normalized
incoming query reaches the threshold. Note the scan is over the
`OrderedDict` *keys* (MD5 hex digests), exactly as in the source. -/
def findSimilarCachedQuery (st : PipelineState) (query : String) :
    Option String :=
  let queryLower := pyStrip (pyLower query)
  (cacheKeys st).find? fun cachedQuery =>
    decide (st.cacheSimilarityThreshold ≤
      similarity queryLower.data (pyLower cachedQuery).data)

/-- `_cache_response`: remove any entry with the same key (to refresh
its position), append the new entry at the most-recent end, then pop
items from the least-recent end while over `cache_max_size`. -/
def lruEvict (maxSize : Nat) :
    List (String × CacheEntry) → List (String × CacheEntry)
  | [] => []
  | e :: rest =>
    if maxSize < (e :: rest).length then lruEvict maxSize rest
    else e :: rest

/-- `_cache_response` itself (see `lruEvict` for the eviction loop). -/
def cacheResponse (st : PipelineState) (query : String)
    (response : AnswerPayload) (now : Nat) : PipelineState :=
  let cacheKey := getCacheKey query
  let cache := st.responseCache.eraseP fun p => p.fst == cacheKey
  let cache := cache ++
    [(cacheKey, { query := query, response := response, timestamp := now })]
  { st with responseCache := lruEvict st.cacheMaxSize cache }

/-- `_get_cached_response`: if a similar cached query is found, re-hash
it and read `self.response_cache[cache_key]`; a missing key is a Python
`KeyError` (`Except.error`). -/
def getCachedResponse (st : PipelineState) (query : String) :
    Except PyError (Option AnswerPayload) :=
  match findSimilarCachedQuery st query with
  | some similarQuery =>
    let cacheKey := getCacheKey similarQuery
    match st.responseCache.lookup cacheKey with
    | some cachedItem => .ok (some cachedItem.response)
    | none => .error (.keyError cacheKey)
  | none => .ok none

/-- `clear_cache`. -/
def clearCache (st : PipelineState) : PipelineState :=
  { st with responseCache := [] }

/-! ### Context selector (`retrieve_context`, `build_prompt`) -/

/-- The filtering loop of `retrieve_context`: keep results whose
similarity `1 - result.get("score", 1.0)` is `> 0.1`. -/
def filterResults : List Doc → List Doc
  | [] => []
  | result :: rest =>
    if (1 - result.score.getD 1 : ℚ) > 0.1 then
      result :: filterResults rest
    else filterResults rest

/-- `retrieve_context` applied to the raw search results: filter, then
`[:3]`. (The `vector_db.search` call itself is external; its result list
is this function's argument.) -/
def retrieve_context (results : List Doc) : List Doc :=
  (filterResults results).take 3

/-- The query string `answer_question` passes to retrieval:
`f"Minecraft {query}"`. -/
def minecraftQuery (query : String) : String := "Minecraft " ++ query

/-- Python string slicing `s[:n]`: the first `n` characters. -/
def pySlice (s : String) (n : Nat) : String := String.mk (s.data.take n)

/-- `max_context_length` in `build_prompt`. -/
def maxContextLength : Nat := 2000

/-- `f"[Source {i + 1}: {doc['title']}]\n{doc['content']}"`. -/
def formatDoc (i : Nat) (doc : Doc) : String :=
  "[Source " ++ toString (i + 1) ++ ": " ++ doc.title ++ "]" ++ "\n"
    ++ doc.content

/-- The packing loop of `build_prompt` over `enumerate(context_docs)`
with running index `i` and accumulated `total_length`: a block that
would exceed the budget is truncated to the remaining budget plus an
ellipsis if more than 200 characters remain, or dropped; either way the
loop `break`s. -/
def packContext : List Doc → Nat → Nat → List String
  | [], _, _ => []
  | doc :: rest, i, totalLength =>
    let docContent := formatDoc i doc
    if maxContextLength < totalLength + docContent.length then
      let remaining := maxContextLength - totalLength
      if 200 < remaining then [pySlice docContent remaining ++ "..."]
      else []
    else docContent :: packContext rest (i + 1) (totalLength + docContent.length)

/-- Python `"\n\n---\n\n".join(context_parts)`. -/
def joinSep (sep : String) : List String → String
  | [] => ""
  | [part] => part
  | part :: rest => part ++ sep ++ joinSep sep rest

/-- The `context` string assembled inside `build_prompt`. -/
def buildContext (contextDocs : List Doc) : String :=
  joinSep "\n\n---\n\n" (packContext contextDocs 0 0)

/-- `build_prompt`: the template with `{context}` and `{query}`
substituted (modeling `str.format` for these two placeholders). -/
def build_prompt (template query : String) (contextDocs : List Doc) :
    String :=
  (template.replace "{context}" (buildContext contextDocs)).replace
    "{query}" query

/-! ### Generation (`generate_response`) and orchestration
(`answer_question`) -/

/-- `generate_response`: every failure of the Ollama call is converted
into a user-facing message string — no exception escapes. The `prompt`
argument does not influence the observable outcome, which is supplied by
the environment. -/
def generateResponse (prompt : String) (outcome : GenOutcome) : String :=
  let _ := prompt
  match outcome with
  | .success body =>
    let answer := pyStrip body
    if answer = "" then
      "I found some information but couldn\x27t generate a complete answer. Please try rephrasing your question."
    else answer
  | .badStatus code => "Error generating response: " ++ toString code
  | .timeout =>
    "The AI is taking too long to respond. Please try a simpler question or try again later."
  | .connError msg => "Error connecting to LLM: " ++ msg

/-- The fixed payload answer when no context survives filtering. -/
def noInfoAnswer : String :=
  "I couldn\x27t find any relevant information in my knowledge base."

/-- `{"title": doc["title"], "url": doc["url"], "relevance": doc["score"]}`. -/
def mkSource (doc : Doc) : SourceRef :=
  { title := doc.title, url := doc.url, relevance := doc.score }

/-- `answer_question`: cache check, retrieval, context selection, prompt
build, generation, source formatting, cache write. `answer_question` has
no exception handler, so a `KeyError` from the cache lookup or an
exception from `vector_db.search` propagates to the caller
(`Except.error`). -/
def answer_question (st : PipelineState) (env : Env) (query : String)
    (includeSources : Bool := true) :
    Except PyError (AnswerPayload × PipelineState) :=
  match getCachedResponse st query with
  | .error e => .error e
  | .ok (some cachedResponse) => .ok (cachedResponse, st)
  | .ok none =>
    match env.searchResult with
    | .error e => .error e
    | .ok results =>
      let contextDocs := retrieve_context results
      match contextDocs with
      | [] =>
        let response : AnswerPayload :=
          { answer := noInfoAnswer, sources := [], contextUsed := 0 }
        .ok (response, cacheResponse st query response env.now)
      | _ =>
        let prompt := build_prompt st.promptTemplate query contextDocs
        let answer := generateResponse prompt env.genOutcome
        let sources :=
          if includeSources then (contextDocs.take 3).map mkSource else []
        let response : AnswerPayload :=
          { answer := answer
            sources := sources
            contextUsed := contextDocs.length }
        .ok (response, cacheResponse st query response env.now)

/-! ### Auxiliary definitions used by the theorems -/

/-- `True` iff the embedded Python call returned normally
(no exception escaped). -/
def pyOk {α : Type} : Except PyError α → Bool
  | .ok _ => true
  | .error _ => false

/-- The last `n` elements of a list. -/
def takeLast {α : Type} (n : Nat) (l : List α) : List α :=
  l.drop (l.length - n)

/-- Repeatedly `_cache_response` a list of (query, payload) pairs. -/
def foldStores (st : PipelineState)
    (qs : List (String × AnswerPayload)) : PipelineState :=
  qs.foldl (fun acc p => cacheResponse acc p.fst p.snd 0) st

/-- Total character count of a list of context blocks. -/
def sumLengths (parts : List String) : Nat :=
  (parts.map String.length).sum

/-- A payload used in concrete scenarios. -/
def samplePayload : AnswerPayload :=
  { answer := "sample answer", sources := [], contextUsed := 0 }

/-- A pipeline state whose cache capacity is 2 (the recency scenario). -/
def capTwoState : PipelineState :=
  { responseCache := []
    cacheMaxSize := 2
    cacheSimilarityThreshold := 0.85
    promptTemplate := "" }

/-- 51 queries `q0 .. q50` with the sample payload (capacity scenario). -/
def capacityQuery0 : String × AnswerPayload := ("q0", samplePayload)

/-- The remaining 50 queries of the capacity scenario. -/
def capacityRest : List (String × AnswerPayload) :=
  (List.range 50).map fun n => ("q" ++ toString (n + 1), samplePayload)

/-- A single relevant passage (distance 0.05). -/
def relevantDocs : List Doc :=
  [{ title := "T", content := "some content", url := "u",
     score := some (mkRat 1 20) }]

/-- Environment where retrieval succeeds and generation times out. -/
def genFailEnv : Env :=
  { searchResult := .ok relevantDocs, genOutcome := .timeout, now := 0 }

/-- Environment where `vector_db.search` raises. -/
def searchFailEnv : Env :=
  { searchResult := .error (.searchError "connection refused")
    genOutcome := .success "ok"
    now := 0 }

/-- Environment where retrieval succeeds with zero passages. -/
def emptySearchEnv : Env :=
  { searchResult := .ok [], genOutcome := .timeout, now := 0 }

/-- A passage whose formatted block is 14 + 2490 characters, overrunning
the 2000-character budget. -/
def longDoc : Doc :=
  { title := "T", content := String.mk (List.replicate 2490 'a'),
    url := "u", score := some (mkRat 1 20) }

/-- A passage whose formatted block is 1900 characters. -/
def bigDocA : Doc :=
  { title := "T", content := String.mk (List.replicate 1886 'a'),
    url := "u1", score := some (mkRat 1 20) }

/-- A passage whose formatted block is 300 characters: it overruns the
budget after `bigDocA` with only 100 characters remaining (≤ 200), so
budget packing drops it. -/
def bigDocB : Doc :=
  { title := "U", content := String.mk (List.replicate 286 'b'),
    url := "u2", score := some (mkRat 1 10) }

/-- Environment returning `bigDocA` and `bigDocB`, generation succeeds. -/
def budgetEnv : Env :=
  { searchResult := .ok [bigDocA, bigDocB]
    genOutcome := .success "generated answer"
    now := 0 }

/-- A passage with distance `d`. -/
def passageWithDistance (d : ℚ) : Doc :=
  { title := "t", content := "c", url := "u", score := some d }

/-- The five passages of the relevance-filter scenario, with distances
[0.05, 0.2, 0.95, 0.3, 0.4]. -/
def fiveDocs : List Doc :=
  [passageWithDistance (mkRat 1 20), passageWithDistance (mkRat 1 5),
   passageWithDistance (mkRat 19 20), passageWithDistance (mkRat 3 10),
   passageWithDistance (mkRat 2 5)]

/-- A passage with no `score` key. -/
def noScoreDoc : Doc :=
  { title := "t0", content := "c0", url := "u0", score := none }

/-! ### Lemmas about the cache -/

theorem lruEvict_eq_drop (maxSize : Nat) (l : List (String × CacheEntry)) :
    lruEvict maxSize l = l.drop (l.length - maxSize) := by
  induction l with
  | nil => simp [lruEvict]
  | cons e rest ih =>
    by_cases h : maxSize < (e :: rest).length
    · rw [lruEvict, if_pos h, ih]
      have hlen : (e :: rest).length - maxSize = (rest.length - maxSize) + 1 := by
        simp only [List.length_cons] at h ⊢
        omega
      rw [hlen, List.drop_succ_cons]
    · rw [lruEvict, if_neg h]
      have hlen : (e :: rest).length - maxSize = 0 := by
        simp only [List.length_cons] at h ⊢
        omega
      rw [hlen, List.drop_zero]

theorem lruEvict_length_le (maxSize : Nat) (l : List (String × CacheEntry)) :
    (lruEvict maxSize l).length ≤ maxSize := by
  rw [lruEvict_eq_drop, List.length_drop]
  omega

theorem cacheResponse_maxSize (st : PipelineState) (q : String)
    (r : AnswerPayload) (now : Nat) :
    (cacheResponse st q r now).cacheMaxSize = st.cacheMaxSize := rfl

theorem cacheKeys_cacheResponse_fresh (st : PipelineState) (q : String)
    (r : AnswerPayload) (now : Nat) (h : getCacheKey q ∉ cacheKeys st) :
    cacheKeys (cacheResponse st q r now) =
      takeLast st.cacheMaxSize (cacheKeys st ++ [getCacheKey q]) := by
  have herase :
      st.responseCache.eraseP (fun p => p.fst == getCacheKey q) =
        st.responseCache := by
    apply List.eraseP_of_forall_not
    intro p hp hbeq
    exact h (eq_of_beq hbeq ▸ List.mem_map_of_mem Prod.fst hp)
  simp only [cacheResponse, cacheKeys, takeLast, herase, lruEvict_eq_drop,
    List.map_drop, List.map_append, List.map_cons, List.map_nil,
    List.length_append, List.length_map, List.length_cons, List.length_nil]

theorem takeLast_append_takeLast {α : Type} (n : Nat) (a b : List α) :
    takeLast n (takeLast n a ++ b) = takeLast n (a ++ b) := by
  unfold takeLast
  rw [← List.drop_append_of_le_length (Nat.sub_le a.length n),
    List.drop_drop]
  congr 1
  simp only [List.length_append, List.length_drop]
  omega

theorem foldStores_keys (qs : List (String × AnswerPayload))
    (st : PipelineState)
    (hlen : st.responseCache.length ≤ st.cacheMaxSize)
    (hnd : (cacheKeys st ++ qs.map fun p => getCacheKey p.fst).Nodup) :
    cacheKeys (foldStores st qs) =
      takeLast st.cacheMaxSize
        (cacheKeys st ++ qs.map fun p => getCacheKey p.fst) := by
  induction qs generalizing st with
  | nil =>
    simp only [foldStores, List.foldl_nil, List.map_nil, List.append_nil,
      takeLast]
    have hkl : (cacheKeys st).length = st.responseCache.length := by
      simp [cacheKeys]
    rw [hkl, Nat.sub_eq_zero_of_le hlen, List.drop_zero]
  | cons q rest ih =>
    have hfresh : getCacheKey q.fst ∉ cacheKeys st := by
      simp only [List.map_cons, List.nodup_append] at hnd
      intro hmem
      exact hnd.2.2 hmem (List.mem_cons_self _ _)
    have hstep : foldStores st (q :: rest) =
        foldStores (cacheResponse st q.fst q.snd 0) rest := rfl
    rw [hstep]
    set st' := cacheResponse st q.fst q.snd 0 with hst'
    have hkeys' : cacheKeys st' =
        takeLast st.cacheMaxSize (cacheKeys st ++ [getCacheKey q.fst]) :=
      cacheKeys_cacheResponse_fresh st q.fst q.snd 0 hfresh
    have hmax' : st'.cacheMaxSize = st.cacheMaxSize := rfl
    have hsub : List.Sublist
        (cacheKeys st' ++ rest.map fun p => getCacheKey p.fst)
        ((cacheKeys st ++ [getCacheKey q.fst]) ++
          rest.map fun p => getCacheKey p.fst) := by
      apply List.Sublist.append_right
      rw [hkeys', takeLast]
      exact List.drop_sublist _ _
    have hnd' :
        (cacheKeys st' ++ rest.map fun p => getCacheKey p.fst).Nodup := by
      apply hsub.nodup
      rw [List.append_assoc, List.singleton_append]
      simpa only [List.map_cons] using hnd
    have hlen' : st'.responseCache.length ≤ st'.cacheMaxSize := by
      rw [hst']
      exact lruEvict_length_le _ _
    rw [ih st' hlen' hnd', hmax', hkeys', takeLast_append_takeLast,
      List.append_assoc, List.singleton_append, List.map_cons]

theorem cacheResponse_length_fresh (st : PipelineState) (q : String)
    (r : AnswerPayload) (now : Nat)
    (hfresh : getCacheKey q ∉ cacheKeys st)
    (hroom : st.responseCache.length < st.cacheMaxSize) :
    (cacheResponse st q r now).responseCache.length =
      st.responseCache.length + 1 := by
  have hk := cacheKeys_cacheResponse_fresh st q r now hfresh
  have hlenk : (cacheKeys (cacheResponse st q r now)).length =
      (cacheResponse st q r now).responseCache.length := by
    simp [cacheKeys]
  have hlens : (cacheKeys st).length = st.responseCache.length := by
    simp [cacheKeys]
  rw [← hlenk, hk, takeLast, List.length_drop, List.length_append, hlens]
  simp only [List.length_cons, List.length_nil]
  omega

/-! ### Claim theorems -/

/-- C1: the claimed reflexive cache hit fails on the code. Immediately
after `_cache_response("a", P)`, `_get_cached_response("a")` returns
`None` (a miss), because `_find_similar_cached_query` compares the
normalized query against the `OrderedDict` *keys* — MD5 hex digests —
rather than the stored original query strings: the ratio between `"a"`
and `"0cc175b9c0f1b6a831c399e269772661"` is `2/33 < 0.85`. -/
theorem reflexive_lookup_misses :
    getCachedResponse (cacheResponse initState "a" samplePayload 0) "a" =
      Except.ok none := by
  decide

/-- C8: cache operations can raise. With `"a"` stored (under key
`k = md5("a") = "0cc175b9c0f1b6a831c399e269772661"`), looking up the
query string `k` itself finds `k` similar (ratio 1 ≥ 0.85), re-hashes it
to `md5(k) ≠ k`, and the dict access `self.response_cache[cache_key]`
raises `KeyError`, which `_get_cached_response` does not catch. -/
theorem lookup_raises_keyerror :
    getCachedResponse (cacheResponse initState "a" samplePayload 0)
        (getCacheKey "a") =
      Except.error (PyError.keyError (getCacheKey (getCacheKey "a"))) := by
  decide

/-- C3 counterexample: with capacity 2, after store("alpha"),
store("beta"), lookup("alpha"), store("gamma"), it is *alpha* (not beta)
that is evicted: the lookup misses (hash-key comparison) and
`_get_cached_response` performs no recency refresh in any case, so
"alpha" stays least recently used. The claim asserts beta is evicted. -/
theorem recency_refresh_cex :
    getCachedResponse
        (cacheResponse (cacheResponse capTwoState "alpha" samplePayload 0)
          "beta" samplePayload 1) "alpha" = Except.ok none ∧
    getCacheKey "alpha" ∉ cacheKeys
        (cacheResponse
          (cacheResponse (cacheResponse capTwoState "alpha" samplePayload 0)
            "beta" samplePayload 1) "gamma" samplePayload 2) ∧
    getCacheKey "beta" ∈ cacheKeys
        (cacheResponse
          (cacheResponse (cacheResponse capTwoState "alpha" samplePayload 0)
            "beta" samplePayload 1) "gamma" samplePayload 2) := by
  decide

/-- C3 (amended): `_get_cached_response` never modifies the cache — in
particular a hit or miss performs no recency refresh — so with capacity
2 the sequence store(A), store(B), lookup(A), store(C) evicts A (the
least recently *stored* entry), leaving exactly B and C, whenever the
three keys are distinct. -/
theorem lookup_no_recency_refresh (A B C : String)
    (pa pb pc : AnswerPayload) (tA tB tC : Nat)
    (hBA : getCacheKey B ≠ getCacheKey A)
    (hCA : getCacheKey C ≠ getCacheKey A)
    (hCB : getCacheKey C ≠ getCacheKey B) :
    cacheKeys
        (cacheResponse
          (cacheResponse (cacheResponse capTwoState A pa tA) B pb tB)
          C pc tC) =
      [getCacheKey B, getCacheKey C] := by
  have h1 : cacheKeys (cacheResponse capTwoState A pa tA) =
      [getCacheKey A] := by
    rw [cacheKeys_cacheResponse_fresh _ _ _ _
      (by simp [capTwoState, cacheKeys])]
    simp [capTwoState, cacheKeys, takeLast]
  have h2 : cacheKeys
      (cacheResponse (cacheResponse capTwoState A pa tA) B pb tB) =
      [getCacheKey A, getCacheKey B] := by
    rw [cacheKeys_cacheResponse_fresh _ _ _ _ (by rw [h1]; simp [hBA]), h1]
    simp [capTwoState, cacheResponse, takeLast]
  rw [cacheKeys_cacheResponse_fresh _ _ _ _ (by rw [h2]; simp [hCA, hCB]),
    h2]
  simp [capTwoState, cacheResponse, takeLast]

/-- C3 witness: the amended eviction statement at the concrete scenario
queries. -/
theorem lookup_no_recency_refresh_witness :
    cacheKeys
        (cacheResponse
          (cacheResponse (cacheResponse capTwoState "alpha" samplePayload 0)
            "beta" samplePayload 1) "gamma" samplePayload 2) =
      [getCacheKey "beta", getCacheKey "gamma"] :=
  lookup_no_recency_refresh "alpha" "beta" "gamma" samplePayload
    samplePayload samplePayload 0 1 2 (by decide) (by decide) (by decide)

/-- C4: the capacity invariant. (1) After every `_cache_response` the
cache holds at most `cache_max_size` entries. (2) Inserting 51 queries
with pairwise-distinct cache keys (distinct normalized forms whose MD5
digests do not collide) into the initial empty capacity-50 cache leaves
the keys of queries 2..51 in order — exactly 50 entries — and exactly
the first inserted query's key is absent. -/
theorem cache_capacity_invariant :
    (∀ (st : PipelineState) (q : String) (r : AnswerPayload) (now : Nat),
        (cacheResponse st q r now).responseCache.length ≤
          st.cacheMaxSize) ∧
    ∀ (q0 : String × AnswerPayload) (rest : List (String × AnswerPayload)),
      (q0 :: rest).length = 51 →
      ((q0 :: rest).map fun p => getCacheKey p.fst).Nodup →
      cacheKeys (foldStores initState (q0 :: rest)) =
          ((q0 :: rest).map fun p => getCacheKey p.fst).drop 1 ∧
        (foldStores initState (q0 :: rest)).responseCache.length = 50 ∧
        getCacheKey q0.fst ∉
          cacheKeys (foldStores initState (q0 :: rest)) := by
  constructor
  · intro st q r now
    exact lruEvict_length_le _ _
  · intro q0 rest hlen hnd
    have hml : ((q0 :: rest).map fun p => getCacheKey p.fst).length = 51 := by
      rw [List.length_map, hlen]
    have hkeys : cacheKeys (foldStores initState (q0 :: rest)) =
        ((q0 :: rest).map fun p => getCacheKey p.fst).drop 1 := by
      have h0 := foldStores_keys (q0 :: rest) initState
        (by simp [initState]) (by simpa [initState, cacheKeys] using hnd)
      rw [h0]
      have hik : cacheKeys initState = [] := rfl
      rw [hik, List.nil_append, takeLast, hml]
      norm_num [initState]
    refine ⟨hkeys, ?_, ?_⟩
    · have hc := congrArg List.length hkeys
      simp only [cacheKeys, List.length_map, List.length_drop, hml] at hc
      exact hc
    · rw [hkeys]
      simp only [List.map_cons] at hnd ⊢
      rw [List.drop_succ_cons, List.drop_zero]
      exact (List.nodup_cons.mp hnd).1

/-- C4 witness: the 51 concrete queries `q0 .. q50` (whose 51 MD5 cache
keys are pairwise distinct, verified by evaluation). -/
theorem cache_capacity_invariant_witness :
    (capacityQuery0 :: capacityRest).length = 51 ∧
    (cacheKeys (foldStores initState (capacityQuery0 :: capacityRest)) =
        ((capacityQuery0 :: capacityRest).map
          fun p => getCacheKey p.fst).drop 1 ∧
      (foldStores initState
        (capacityQuery0 :: capacityRest)).responseCache.length = 50 ∧
      getCacheKey capacityQuery0.fst ∉
        cacheKeys (foldStores initState (capacityQuery0 :: capacityRest))) :=
  ⟨by rfl,
    cache_capacity_invariant.2 capacityQuery0 capacityRest (by rfl)
      (by decide)⟩

/-! ### Lemmas about the context selector -/

theorem strLength_append (s t : String) :
    (s ++ t).length = s.length + t.length := by
  cases s with
  | mk sd =>
    cases t with
    | mk td =>
      show (String.mk (sd ++ td)).length = _
      simp [String.length]

theorem packContext_sum_le (docs : List Doc) :
    ∀ i totalLength : Nat, totalLength ≤ maxContextLength →
      sumLengths (packContext docs i totalLength) + totalLength ≤
        maxContextLength + 3 := by
  induction docs with
  | nil =>
    intro i t ht
    simp only [packContext, sumLengths, List.map_nil, List.sum_nil]
    omega
  | cons doc rest ih =>
    intro i t ht
    simp only [packContext]
    split
    case isTrue hov =>
      split
      case isTrue hrem =>
        simp only [sumLengths, List.map_cons, List.map_nil, List.sum_cons,
          List.sum_nil]
        rw [strLength_append]
        have hslice : (pySlice (formatDoc i doc) (maxContextLength - t)).length =
            min (maxContextLength - t) (formatDoc i doc).length := by
          simp only [pySlice, String.length, List.length_take]
        have hmin := Nat.min_le_left (maxContextLength - t)
          (formatDoc i doc).length
        have hdots : ("..." : String).length = 3 := rfl
        omega
      case isFalse hrem =>
        simp only [sumLengths, List.map_nil, List.sum_nil]
        omega
    case isFalse hov =>
      simp only [sumLengths, List.map_cons, List.sum_cons]
      have hrec := ih (i + 1) (t + (formatDoc i doc).length) (by omega)
      simp only [sumLengths] at hrec
      omega

theorem joinSep_length (sep : String) (parts : List String) :
    (joinSep sep parts).length ≤
      sumLengths parts + sep.length * (parts.length - 1) := by
  induction parts with
  | nil => simp [joinSep, sumLengths]
  | cons x rest ih =>
    cases rest with
    | nil => simp [joinSep, sumLengths]
    | cons y ys =>
      show (x ++ sep ++ joinSep sep (y :: ys)).length ≤ _
      rw [strLength_append, strLength_append]
      simp only [sumLengths, List.map_cons, List.sum_cons,
        List.length_cons] at ih ⊢
      rw [Nat.add_sub_cancel] at ih ⊢
      rw [Nat.mul_succ]
      omega

theorem filterResults_eq_filter (results : List Doc) :
    filterResults results =
      results.filter fun r => decide ((1 - r.score.getD 1 : ℚ) > 0.1) := by
  induction results with
  | nil => rfl
  | cons r rest ih =>
    simp only [filterResults, List.filter_cons]
    by_cases h : (1 - r.score.getD 1 : ℚ) > 0.1
    · rw [if_pos h, ih]
      simp [h]
    · rw [if_neg h, ih]
      simp [h]

/-! ### Claim theorems (continued) -/

/-- C2 counterexample: a Generate failure (timeout) is converted by
`generate_response` into the apology string and then cached like any
answer: after the call with an initially empty cache, the cache holds 1
entry, not 0 as the claim requires. -/
theorem failure_cached_cex :
    (answer_question initState genFailEnv "q").toOption.map
        (fun r => (r.fst.answer, r.snd.responseCache.length)) =
      some
        ("The AI is taking too long to respond. Please try a simpler question or try again later.",
          1) := by
  decide

/-- C2 (amended): `answer_question` caches the response of every
completed generation step, failed or not — `generate_response` converts
timeouts, transport errors and bad statuses into message strings which
are cached exactly like successful answers. For a fresh query (cache
miss, unused key, spare capacity) whose retrieval yields surviving
passages, the cache grows by exactly one entry regardless of the
generation outcome, and the answer is whatever string
`generate_response` produced for that outcome. -/
theorem generation_failure_is_cached (st : PipelineState) (env : Env)
    (query : String) (docs : List Doc)
    (hmiss : getCachedResponse st query = .ok none)
    (hsearch : env.searchResult = .ok docs)
    (hdocs : retrieve_context docs ≠ [])
    (hfresh : getCacheKey query ∉ cacheKeys st)
    (hroom : st.responseCache.length < st.cacheMaxSize) :
    ∃ payload st2, answer_question st env query = .ok (payload, st2) ∧
      payload.answer = generateResponse
        (build_prompt st.promptTemplate query (retrieve_context docs))
        env.genOutcome ∧
      st2.responseCache.length = st.responseCache.length + 1 := by
  cases hre : retrieve_context docs with
  | nil => exact absurd hre hdocs
  | cons d ds =>
    have hans : answer_question st env query = .ok
        ({ answer := generateResponse
             (build_prompt st.promptTemplate query (d :: ds)) env.genOutcome
           sources := ((d :: ds).take 3).map mkSource
           contextUsed := (d :: ds).length },
         cacheResponse st query
           { answer := generateResponse
               (build_prompt st.promptTemplate query (d :: ds))
               env.genOutcome
             sources := ((d :: ds).take 3).map mkSource
             contextUsed := (d :: ds).length } env.now) := by
      simp only [answer_question, hmiss, hsearch, hre, if_true]
    exact ⟨_, _, hans, rfl,
      cacheResponse_length_fresh st query _ env.now hfresh hroom⟩

/-- C2 witness: the fresh query `"q"` with a single relevant passage and
a generation timeout. -/
theorem generation_failure_is_cached_witness :
    ∃ payload st2, answer_question initState genFailEnv "q" =
        .ok (payload, st2) ∧
      payload.answer = generateResponse
        (build_prompt initState.promptTemplate "q"
          (retrieve_context relevantDocs)) genFailEnv.genOutcome ∧
      st2.responseCache.length = initState.responseCache.length + 1 :=
  generation_failure_is_cached initState genFailEnv "q" relevantDocs
    (by decide) rfl (by decide) (by decide) (by decide)

/-- C5 counterexample: one passage whose formatted block has 2504
characters. The remaining budget is 2000 (> 200), so the block is cut to
2000 characters and `"..."` is appended *after* the cut: the context has
2003 characters, exceeding the 2000-character budget the claim asserts
is never exceeded. -/
theorem context_budget_cex :
    maxContextLength < (buildContext [longDoc]).length ∧
    (buildContext [longDoc]).length = 2003 := by
  have hrep : (String.mk (List.replicate 2490 'a')).length = 2490 := by
    simp only [String.length, List.length_replicate]
  have hfd : (formatDoc 0 longDoc).length = 2504 := by
    simp only [formatDoc, longDoc, strLength_append, hrep]
    decide
  have hpack : packContext [longDoc] 0 0 =
      [pySlice (formatDoc 0 longDoc) (maxContextLength - 0) ++ "..."] := by
    simp only [packContext]
    rw [if_pos (by rw [Nat.zero_add, hfd]; decide),
      if_pos (by decide)]
  have hslice :
      (pySlice (formatDoc 0 longDoc) (maxContextLength - 0)).length = 2000 := by
    have hdata : (formatDoc 0 longDoc).data.length = 2504 := hfd
    simp only [pySlice, String.length, List.length_take, hdata]
    decide
  have hctx : (buildContext [longDoc]).length = 2003 := by
    rw [buildContext, hpack]
    show (pySlice (formatDoc 0 longDoc) (maxContextLength - 0) ++ "...").length = 2003
    rw [strLength_append, hslice]
    decide
  exact ⟨by rw [hctx]; decide, hctx⟩

/-- C5 (amended): budget packing keeps the sum of block lengths within
`max_context_length + 3`: untruncated blocks fit within 2000 by the loop
guard, and a truncated block is the remaining budget plus the 3-character
ellipsis appended after cutting (truncation happens only when more than
200 characters remain; otherwise the passage is dropped). The assembled
context additionally contains a 7-character separator between
consecutive blocks, which the loop does not count against the budget. -/
theorem context_budget_bound (docs : List Doc) :
    sumLengths (packContext docs 0 0) ≤ maxContextLength + 3 ∧
    (buildContext docs).length ≤
      maxContextLength + 3 + 7 * ((packContext docs 0 0).length - 1) := by
  have hsum := packContext_sum_le docs 0 0 (by simp [maxContextLength])
  refine ⟨by omega, ?_⟩
  have hj := joinSep_length "\n\n---\n\n" (packContext docs 0 0)
  have hsep : ("\n\n---\n\n" : String).length = 7 := rfl
  rw [hsep] at hj
  show (joinSep "\n\n---\n\n" (packContext docs 0 0)).length ≤ _
  omega

/-- C6: `retrieve_context` keeps exactly the passages with
`1 - distance > 0.1` in their original order, capped at 3; on the five
distances [0.05, 0.2, 0.95, 0.3, 0.4] exactly four pass (the
0.95-distance passage has similarity 0.05 and is excluded) and the three
lowest-distance survivors are retained. -/
theorem relevance_filter_and_cap :
    (∀ results : List Doc, retrieve_context results =
        (results.filter fun r =>
          decide ((1 - r.score.getD 1 : ℚ) > 0.1)).take 3) ∧
    filterResults fiveDocs =
      [passageWithDistance (mkRat 1 20), passageWithDistance (mkRat 1 5),
       passageWithDistance (mkRat 3 10), passageWithDistance (mkRat 2 5)] ∧
    retrieve_context fiveDocs =
      [passageWithDistance (mkRat 1 20), passageWithDistance (mkRat 1 5),
       passageWithDistance (mkRat 3 10)] :=
  ⟨fun results => by rw [retrieve_context, filterResults_eq_filter],
   by decide, by decide⟩

/-- C7 counterexample: an exception raised by `vector_db.search` during
the Retrieve step propagates out of `answer_question` — there is no
handler — contradicting the claim that every external I/O failure is
converted into a well-formed payload. -/
theorem search_error_propagates_cex :
    answer_question initState searchFailEnv "q" =
      .error (.searchError "connection refused") := by
  decide

/-- C7 (amended): `answer_question` returns normally whenever the cache
lookup does not raise and `vector_db.search` does not raise — in
particular every generation failure is contained — but a search
exception (or a cache `KeyError`) propagates to the caller. -/
theorem no_propagation_when_search_ok (st : PipelineState) (env : Env)
    (query : String)
    (hlookup : pyOk (getCachedResponse st query) = true)
    (hsearch : pyOk env.searchResult = true) :
    pyOk (answer_question st env query) = true := by
  unfold answer_question
  cases hc : getCachedResponse st query with
  | error e =>
    rw [hc] at hlookup
    exact absurd hlookup (by simp [pyOk])
  | ok o =>
    cases o with
    | some r => simp [pyOk]
    | none =>
      cases hs : env.searchResult with
      | error e =>
        rw [hs] at hsearch
        exact absurd hsearch (by simp [pyOk])
      | ok results =>
        cases hre : retrieve_context results with
        | nil => simp [pyOk, hre]
        | cons d ds => simp [pyOk, hre]

/-- C7 witness: a query whose retrieval succeeds (with no passages) and
whose generation would time out; the call returns normally. -/
theorem no_propagation_witness :
    pyOk (answer_question initState emptySearchEnv "minecraft") = true :=
  no_propagation_when_search_ok initState emptySearchEnv "minecraft"
    (by decide) (by decide)

/-- C9 counterexample: two passages pass the relevance filter, but
budget packing includes only the first (the second leaves 100 ≤ 200
characters of budget and is dropped). The payload still reports both:
`sources` has 2 entries and `context_used = 2`, while the packed context
consists of 1 block — contradicting the claim that sources and the
count reflect exactly the packed passages. -/
theorem sources_cex :
    (answer_question initState budgetEnv "q2").toOption.map
        (fun r => (r.fst.sources.length, r.fst.contextUsed)) =
      some (2, 2) ∧
    (packContext (retrieve_context [bigDocA, bigDocB]) 0 0).length = 1 := by
  constructor
  · decide
  · have hrepA : (String.mk (List.replicate 1886 'a')).length = 1886 := by
      simp only [String.length, List.length_replicate]
    have hrepB : (String.mk (List.replicate 286 'b')).length = 286 := by
      simp only [String.length, List.length_replicate]
    have hA : (formatDoc 0 bigDocA).length = 1900 := by
      simp only [formatDoc, bigDocA, strLength_append, hrepA]
      decide
    have hB : (formatDoc 1 bigDocB).length = 300 := by
      simp only [formatDoc, bigDocB, strLength_append, hrepB]
      decide
    have hret : retrieve_context [bigDocA, bigDocB] = [bigDocA, bigDocB] := by
      rw [retrieve_context, filterResults_eq_filter]
      simp only [List.filter_cons, List.filter_nil, decide_eq_true_eq]
      rw [if_pos (by decide), if_pos (by decide)]
      rfl
    have hpack : packContext [bigDocA, bigDocB] 0 0 =
        [formatDoc 0 bigDocA] := by
      simp only [packContext]
      rw [if_neg (by rw [Nat.zero_add, hA]; decide), Nat.zero_add, hA,
        if_pos (by rw [hB]; decide), if_neg (by decide)]
    rw [hret, hpack]
    rfl

/-- C9 (amended): the payload's `sources` and `context_used` reflect the
*retrieved, filtered, capped* passages (`context_docs[:3]` and
`len(context_docs)`), independently of which of them budget packing
actually included in the context string. -/
theorem sources_reflect_retrieval (st : PipelineState) (env : Env)
    (query : String) (docs : List Doc)
    (hmiss : getCachedResponse st query = .ok none)
    (hsearch : env.searchResult = .ok docs)
    (hdocs : retrieve_context docs ≠ []) :
    ∃ payload st2, answer_question st env query = .ok (payload, st2) ∧
      payload.sources = ((retrieve_context docs).take 3).map mkSource ∧
      payload.contextUsed = (retrieve_context docs).length := by
  cases hre : retrieve_context docs with
  | nil => exact absurd hre hdocs
  | cons d ds =>
    have hans : answer_question st env query = .ok
        ({ answer := generateResponse
             (build_prompt st.promptTemplate query (d :: ds)) env.genOutcome
           sources := ((d :: ds).take 3).map mkSource
           contextUsed := (d :: ds).length },
         cacheResponse st query
           { answer := generateResponse
               (build_prompt st.promptTemplate query (d :: ds))
               env.genOutcome
             sources := ((d :: ds).take 3).map mkSource
             contextUsed := (d :: ds).length } env.now) := by
      simp only [answer_question, hmiss, hsearch, hre, if_true]
    exact ⟨_, _, hans, rfl, rfl⟩

/-- C9 witness: the two-passage budget scenario; the reported sources
are the two retrieved passages and `context_used` is 2. -/
theorem sources_reflect_retrieval_witness :
    ∃ payload st2, answer_question initState budgetEnv "q2" =
        .ok (payload, st2) ∧
      payload.sources =
        ((retrieve_context [bigDocA, bigDocB]).take 3).map mkSource ∧
      payload.contextUsed = (retrieve_context [bigDocA, bigDocB]).length :=
  sources_reflect_retrieval initState budgetEnv "q2" [bigDocA, bigDocB]
    (by decide) rfl (by decide)

/-- C10: a passage returned by the gateway without a `score` key gets the
default distance 1.0, hence similarity 0, which fails the `> 0.1` filter:
it is always excluded from `retrieve_context`'s result. -/
theorem missing_score_excluded (results : List Doc) (d : Doc)
    (hmem : d ∈ results) (hscore : d.score = none) :
    d ∉ retrieve_context results := by
  intro hin
  have h1 : d ∈ filterResults results := List.mem_of_mem_take hin
  rw [filterResults_eq_filter] at h1
  have h2 := List.of_mem_filter h1
  rw [hscore] at h2
  exact absurd (of_decide_eq_true h2) (by decide)

/-- C10 witness: a concrete scoreless passage is excluded. -/
theorem missing_score_excluded_witness :
    noScoreDoc ∉ retrieve_context [noScoreDoc] :=
  missing_score_excluded [noScoreDoc] noScoreDoc (by simp) rfl

end NextCraftTalk
